import Mathlib

/-!
Verification of the portfolio chatbot application (`app.py`) against its
natural-language specification.  The program is shallowly embedded: the
prompt composer is a pure string function, the generation client and the
profile loader are functions over explicit outcome types standing for the
observable behaviour of the HTTP/file-system calls, and the transcript is
an explicit list with a step function for one user turn.
-/

namespace App

/-- A project record `{name, description}` as stored in `personal_info.json`. -/
structure Project where
  name : String
  description : String
deriving DecidableEq

/-- The profile record loaded from `personal_info.json`, with the fields the
program reads. -/
structure Profile where
  name : String
  occupation : String
  about_me : String
  skills : List String
  education : String
  contact_email : String
  linkedin_profile : String
  github_profile : String
  portfolio_website : String
  projects : List Project
deriving DecidableEq

/-- `PERSONAL_INFO_FILE` constant (app.py line 7). -/
def PERSONAL_INFO_FILE : String := "personal_info.json"

/-- `OLLAMA_API_URL` constant (app.py line 8). -/
def OLLAMA_API_URL : String := "http://localhost:11434/api/generate"

/-- `GEMMA_MODEL_NAME` constant (app.py line 9). -/
def GEMMA_MODEL_NAME : String := "gemma3"

/-- The `identity_statement` f-string (app.py line 79). -/
def identity_statement (p : Profile) : String :=
  "You are an AI chatbot assistant of " ++ p.name ++ ". You were created by " ++ p.name ++
  " to provide accurate and helpful information about his professional background, skills, education, and projects. Always introduce yourself with this identity if asked \x27who are you?\x27 or similar questions."

/-- The labelled fact lines of the `system_intro` f-string (app.py lines 82-92),
from the blank line after the identity statement up to the Portfolio Website line. -/
def fact_lines (p : Profile) : String :=
  "\n\n    Here is key information about " ++ p.name ++ " for you to reference:" ++
  "\n    - **Name:** " ++ p.name ++
  "\n    - **Occupation:** " ++ p.occupation ++
  "\n    - **About Me:** " ++ p.about_me ++
  "\n    - **Skills:** " ++ String.intercalate ", " p.skills ++
  "\n    - **Education:** " ++ p.education ++
  "\n    - **Contact Email:** " ++ p.contact_email ++
  "\n    - **LinkedIn:** " ++ p.linkedin_profile ++
  "\n    - **GitHub:** " ++ p.github_profile ++
  "\n    - **Portfolio Website:** " ++ p.portfolio_website

/-- The projects header closing the `system_intro` f-string (app.py lines 93-95). -/
def projects_header : String := "\n\n    **Projects:**\n    "

/-- One line of the project loop body (app.py line 97). -/
def projectLine (pr : Project) : String :=
  "- **" ++ pr.name ++ "**: " ++ pr.description ++ "\n"

/-- The `for project in personal_info[\x27projects\x27]` loop (app.py lines 96-97):
one line per project, appended in order. -/
def projectLines : List Project → String
  | [] => ""
  | pr :: rest => projectLine pr ++ projectLines rest

/-- `system_intro` after the project loop has run (app.py lines 81-97). -/
def system_intro (p : Profile) : String :=
  identity_statement p ++ fact_lines p ++ projects_header ++ projectLines p.projects

/-- The `navigation_instructions` string (app.py lines 100-115). -/
def navigation_instructions : String :=
  "\n    If the user asks to go to a specific section (e.g., \"show me your skills\", \"go to projects\", \"tell me about your education\", \"take me to contact info\", \"about you\"), respond by providing a clickable Markdown link to that section. Do NOT just give text instructions; provide a link.\n\n    Here are the available sections and their corresponding anchor links:\n    - About Jash: [About Jash](#about-jash)\n    - My Skills: [My Skills](#my-skills)\n    - My Education: [My Education](#my-education)\n    - My Projects: [My Projects](#my-projects)\n    - Contact Jash: [Contact Jash](#contact-jash)\n\n    Example response for skills: \"You can find a detailed list of Jash\x27s skills here: [My Skills](#my-skills)\"\n    Example response for projects: \"Sure, check out Jash\x27s projects here: [My Projects](#my-projects)\"\n    Example response for contact: \"You can reach Jash via the contact section: [Contact Jash](#contact-jash)\"\n\n    Only provide an anchor link if the user explicitly asks to \"go to\", \"show\", \"take me to\" a section, or if their query is clearly a navigation request. If the question is about the content of a section, summarize the content first, and then offer the link for more details.\n    "

/-- The `system_general_instructions` string (app.py lines 117-121). -/
def system_general_instructions : String :=
  "\n    When a user asks about specific details related to Jash Kothari, use the provided information directly and factually.\n    If the question is a general knowledge question not related to Jash Kothari, answer it to the best of your ability using your general knowledge, but maintain your persona as Jash Kothari\x27s assistant.\n    Be polite, concise, and helpful. Do not invent information about Jash Kothari that is not explicitly provided. If you cannot find the answer in the provided information, simply state that you don\x27t have that specific detail about Jash Kothari.\n    "

/-- `create_agentic_prompt(user_query)` (app.py lines 70-124), with the module
global `personal_info` made an explicit argument.  The `if not personal_info`
guard at line 75 is unreachable in the running app: `st.stop()` at line 34 has
already halted the script whenever loading failed. -/
def create_agentic_prompt (p : Profile) (user_query : String) : String :=
  system_intro p ++ "\n" ++ navigation_instructions ++ "\n" ++
    system_general_instructions ++ "\n\nUser Query: " ++ user_query

/-- Modelled from the spec (section 3): the derived project category, absent from
the code of `create_agentic_prompt`.  A project is a "Client Project" when the
substring "client project" occurs case-insensitively in its name, and a
"Personal Project" otherwise. -/
def derivedCategory (name : String) : String :=
  if "client project".data <:+: name.data.map Char.toLower then "Client Project"
  else "Personal Project"

/-- Modelled from the spec (section 4.2): the same six blocks the code builds,
concatenated in the order the spec states them — identity statement, fact
block, project listing, behavior instructions, navigation instruction, user
query — to be compared with `create_agentic_prompt`. -/
def create_agentic_prompt_spec_order (p : Profile) (user_query : String) : String :=
  system_intro p ++ "\n" ++ system_general_instructions ++ "\n" ++
    navigation_instructions ++ "\n\nUser Query: " ++ user_query

end App

namespace App

/-! ## Generation client (`get_gemma_response`, app.py lines 48-67) -/

/-- A minimal JSON value, the shape of request and reply bodies. -/
inductive Json where
  | null : Json
  | boolean : Bool → Json
  | num : Int → Json
  | str : String → Json
  | arr : List Json → Json
  | obj : List (String × Json) → Json

/-- An HTTP POST request as `requests.post` receives it (app.py line 59). -/
structure HttpRequest where
  url : String
  headers : List (String × String)
  body : Json

/-- The JSON body built at app.py lines 53-57: `{model, prompt, stream: false}`. -/
def requestBody (model_name prompt : String) : Json :=
  Json.obj [("model", Json.str model_name), ("prompt", Json.str prompt),
            ("stream", Json.boolean false)]

/-- The full request issued at app.py line 59. -/
def ollamaRequest (model_name prompt : String) : HttpRequest :=
  { url := OLLAMA_API_URL,
    headers := [("Content-Type", "application/json")],
    body := requestBody model_name prompt }

/-- The observable outcome of the `requests.post` call at app.py line 59:
either a raised `requests.exceptions.ConnectionError`, some other raised
`requests.exceptions.RequestException`, or a completed reply with a status
code and a decoded JSON body. -/
inductive HttpOutcome where
  | connectionError : HttpOutcome
  | requestException : HttpOutcome
  | reply : Nat → Json → HttpOutcome

/-- `response.raise_for_status()` (app.py line 60) raises `HTTPError`
exactly for 4xx and 5xx status codes. -/
def raiseForStatusRaises (status : Nat) : Bool :=
  400 ≤ status && status < 600

/-- Python dict lookup on a decoded JSON object. -/
def lookupField : List (String × Json) → String → Option Json
  | [], _ => none
  | (k, v) :: rest, key => if k = key then some v else lookupField rest key

/-- `response.json()[key]`: `some` when the decoded body is an object with
the key; `none` stands for the raised `KeyError`/`TypeError`. -/
def jsonGet : Json → String → Option Json
  | Json.obj fields, key => lookupField fields key
  | _, _ => none

/-- What `get_gemma_response` does with the call's outcome: return the
`response` field, return `None` after one of the two `st.error` branches
(app.py lines 62-67), or let an exception escape uncaught. -/
inductive GenOutcome where
  | answer : Json → GenOutcome
  | unreachable : GenOutcome
  | requestError : GenOutcome
  | uncaught : GenOutcome

/-- `get_gemma_response` (app.py lines 48-67) as a function of the outcome of
its one `requests.post` call.  `except requests.exceptions.ConnectionError`
comes first (line 62), `except requests.exceptions.RequestException` second
(line 65, also catching the `HTTPError` from `raise_for_status`); a `KeyError`
from `response.json()["response"]` is caught by neither. -/
def get_gemma_response (outcome : HttpOutcome) : GenOutcome :=
  match outcome with
  | HttpOutcome.connectionError => GenOutcome.unreachable
  | HttpOutcome.requestException => GenOutcome.requestError
  | HttpOutcome.reply status body =>
    if raiseForStatusRaises status then GenOutcome.requestError
    else
      match jsonGet body "response" with
      | some v => GenOutcome.answer v
      | none => GenOutcome.uncaught

/-! ## Profile loading (`load_personal_info`, app.py lines 15-34) -/

/-- The observable state of the profile file: absent (`os.path.exists` is
false), present but raising some non-JSON exception on open/read, or read
successfully with `json.load` either succeeding (`some`) or raising
`json.JSONDecodeError` (`none`). -/
inductive FileOutcome where
  | absent : FileOutcome
  | ioError : String → FileOutcome
  | readable : Option Json → FileOutcome

/-- The `st.error` message at app.py line 18. -/
def notFoundMessage (file_path : String) : String :=
  "Error: Personal information file \x27" ++ file_path ++ "\x27 not found. Please create it."

/-- The `st.error` message at app.py line 24. -/
def parseErrorMessage (file_path : String) : String :=
  "Error: Could not parse \x27" ++ file_path ++ "\x27. Please check its JSON format for errors (e.g., missing commas, unclosed brackets)."

/-- The `st.error` message at app.py line 27. -/
def unexpectedMessage (file_path e : String) : String :=
  "An unexpected error occurred while loading \x27" ++ file_path ++ "\x27: " ++ e

/-- The result of `load_personal_info`: the loaded document, or `None` after
one of the three `st.error` branches, tagged with which branch ran. -/
inductive LoadResult where
  | ok : Json → LoadResult
  | notFound : String → LoadResult
  | parseError : String → LoadResult
  | unexpected : String → LoadResult

/-- `load_personal_info(file_path)` (app.py lines 15-28) as a function of the
file state: the existence check at line 17, then `json.load` with
`except json.JSONDecodeError` (line 23) and `except Exception` (line 26). -/
def load_personal_info (file_path : String) (fs : FileOutcome) : LoadResult :=
  match fs with
  | FileOutcome.absent => LoadResult.notFound (notFoundMessage file_path)
  | FileOutcome.ioError e => LoadResult.unexpected (unexpectedMessage file_path e)
  | FileOutcome.readable none => LoadResult.parseError (parseErrorMessage file_path)
  | FileOutcome.readable (some j) => LoadResult.ok j

/-- App startup (app.py lines 30-34): `personal_info` is the loaded document;
on any load failure `st.stop()` halts the script, so no later code (and in
particular no chat surface) runs.  `none` is the halted state. -/
def startupProfile (fs : FileOutcome) : Option Json :=
  match load_personal_info PERSONAL_INFO_FILE fs with
  | LoadResult.ok j => some j
  | _ => none

/-! ## Transcript (`st.session_state.messages`, app.py lines 136-159) -/

/-- One transcript entry `{"role": ..., "content": ...}`. -/
structure TranscriptEntry where
  role : String
  content : String
deriving DecidableEq

/-- A user entry as appended at app.py line 150. -/
def userEntry (s : String) : TranscriptEntry := ⟨"user", s⟩

/-- An assistant entry as appended at app.py line 159. -/
def assistantEntry (s : String) : TranscriptEntry := ⟨"assistant", s⟩

/-- The synthetic assistant greeting seeding the transcript (app.py
lines 136-140). -/
def greeting (p : Profile) : TranscriptEntry :=
  assistantEntry ("Hello! I am a chatbot assistant of " ++ p.name ++ ". I was created by " ++ p.name ++ " to help you learn more about his professional background. How can I assist you today?")

/-- One user turn (app.py lines 148-159): the user entry is appended at
line 150 before the generation call; the assistant entry is appended at
line 159 only when `if response:` (line 156) is truthy, i.e. only when the
call returned (`some`) a non-empty string. -/
def turnStep (msgs : List TranscriptEntry) (userText : String)
    (response : Option String) : List TranscriptEntry :=
  match response with
  | some r =>
    if r.isEmpty then msgs ++ [userEntry userText]
    else msgs ++ [userEntry userText, assistantEntry r]
  | none => msgs ++ [userEntry userText]

/-- The transcript states reachable in a session: seeded with the greeting
(app.py lines 136-140), then grown one user turn at a time. -/
inductive Reachable (p : Profile) : List TranscriptEntry → Prop where
  | init : Reachable p [greeting p]
  | turn (msgs : List TranscriptEntry) (u : String) (r : Option String) :
      Reachable p msgs → Reachable p (turnStep msgs u r)

/-! ## Helper lemmas -/

/-- `String` append acts as append on the underlying character lists. -/
theorem strData_append (a b : String) : (a ++ b).data = a.data ++ b.data := rfl

/-- The empty string has no characters. -/
theorem strData_empty : ("" : String).data = [] := rfl

theorem infixAppendL {x a : List Char} (b : List Char) (h : x <:+: a) :
    x <:+: a ++ b := by
  obtain ⟨u, v, rfl⟩ := h
  exact ⟨u, v ++ b, by simp⟩

theorem infixAppendR (a : List Char) {x b : List Char} (h : x <:+: b) :
    x <:+: a ++ b := by
  obtain ⟨u, v, rfl⟩ := h
  exact ⟨a ++ u, v, by simp⟩

/-- Concatenation of a list of strings, in order. -/
def concatAll : List String → String
  | [] => ""
  | s :: rest => s ++ concatAll rest

theorem infix_of_mem_concatAll {s : String} {l : List String} (h : s ∈ l) :
    s.data <:+: (concatAll l).data := by
  induction l with
  | nil => cases h
  | cons a rest ih =>
    cases h with
    | head =>
      show s.data <:+: s.data ++ (concatAll rest).data
      exact infixAppendL _ (List.infix_refl _)
    | tail _ hmem =>
      show s.data <:+: a.data ++ (concatAll rest).data
      exact infixAppendR _ (ih hmem)

theorem infix_of_mem_projectLines {pr : Project} {l : List Project} (h : pr ∈ l) :
    (projectLine pr).data <:+: (projectLines l).data := by
  induction l with
  | nil => cases h
  | cons a rest ih =>
    cases h with
    | head =>
      show (projectLine pr).data <:+: (projectLine pr).data ++ (projectLines rest).data
      exact infixAppendL _ (List.infix_refl _)
    | tail _ hmem =>
      show (projectLine pr).data <:+: (projectLine a).data ++ (projectLines rest).data
      exact infixAppendR _ (ih hmem)

/-- The composed prompt broken into its sequence of literal fragments and
profile values, in the order they are concatenated. -/
def promptChunks (p : Profile) (q : String) : List String :=
  ["You are an AI chatbot assistant of ", p.name, ". You were created by ", p.name,
   " to provide accurate and helpful information about his professional background, skills, education, and projects. Always introduce yourself with this identity if asked \x27who are you?\x27 or similar questions.",
   "\n\n    Here is key information about ", p.name, " for you to reference:",
   "\n    - **Name:** ", p.name,
   "\n    - **Occupation:** ", p.occupation,
   "\n    - **About Me:** ", p.about_me,
   "\n    - **Skills:** ", String.intercalate ", " p.skills,
   "\n    - **Education:** ", p.education,
   "\n    - **Contact Email:** ", p.contact_email,
   "\n    - **LinkedIn:** ", p.linkedin_profile,
   "\n    - **GitHub:** ", p.github_profile,
   "\n    - **Portfolio Website:** ", p.portfolio_website,
   projects_header, projectLines p.projects,
   "\n", navigation_instructions, "\n", system_general_instructions,
   "\n\nUser Query: ", q]

theorem create_agentic_prompt_eq_concatAll (p : Profile) (q : String) :
    create_agentic_prompt p q = concatAll (promptChunks p q) := by
  apply String.ext
  simp only [create_agentic_prompt, system_intro, identity_statement, fact_lines,
    projects_header, promptChunks, concatAll, strData_append, strData_empty,
    List.append_assoc, List.append_nil]

end App

namespace App

/-- The end-to-end example profile from spec section 8. -/
def pExample : Profile :=
  { name := "Jash", occupation := "Engineer", about_me := "About",
    skills := ["Python"], education := "BTech",
    contact_email := "jash@example.com", linkedin_profile := "li",
    github_profile := "gh", portfolio_website := "site",
    projects := [⟨"Client Project: A", "d1"⟩, ⟨"B", "d2"⟩] }

/-- Claim C3: for every profile and every user query, the composed prompt
contains, as literal substrings, every scalar profile field, the skills
joined by commas, and every project name verbatim. -/
theorem prompt_contains_profile_fields (p : Profile) (q : String) :
    p.name.data <:+: (create_agentic_prompt p q).data ∧
    p.occupation.data <:+: (create_agentic_prompt p q).data ∧
    p.about_me.data <:+: (create_agentic_prompt p q).data ∧
    p.education.data <:+: (create_agentic_prompt p q).data ∧
    p.contact_email.data <:+: (create_agentic_prompt p q).data ∧
    p.linkedin_profile.data <:+: (create_agentic_prompt p q).data ∧
    p.github_profile.data <:+: (create_agentic_prompt p q).data ∧
    p.portfolio_website.data <:+: (create_agentic_prompt p q).data ∧
    (String.intercalate ", " p.skills).data <:+: (create_agentic_prompt p q).data ∧
    ∀ pr ∈ p.projects, pr.name.data <:+: (create_agentic_prompt p q).data := by
  rw [create_agentic_prompt_eq_concatAll]
  refine ⟨infix_of_mem_concatAll (by simp [promptChunks]),
    infix_of_mem_concatAll (by simp [promptChunks]),
    infix_of_mem_concatAll (by simp [promptChunks]),
    infix_of_mem_concatAll (by simp [promptChunks]),
    infix_of_mem_concatAll (by simp [promptChunks]),
    infix_of_mem_concatAll (by simp [promptChunks]),
    infix_of_mem_concatAll (by simp [promptChunks]),
    infix_of_mem_concatAll (by simp [promptChunks]),
    infix_of_mem_concatAll (by simp [promptChunks]), ?_⟩
  intro pr hpr
  have h1 : pr.name.data <:+: (projectLine pr).data :=
    infixAppendL _ (infixAppendL _ (infixAppendL _ (infixAppendR _ (List.infix_refl _))))
  have h2 : (projectLine pr).data <:+: (projectLines p.projects).data :=
    infix_of_mem_projectLines hpr
  have h3 : (projectLines p.projects).data <:+: (concatAll (promptChunks p q)).data :=
    infix_of_mem_concatAll (by simp [promptChunks])
  exact h1.trans (h2.trans h3)

/-- Witness for C3: at the spec section 8 example profile, the prompt contains
the profile name and the first project's name. -/
theorem prompt_contains_profile_fields_witness :
    "Jash".data <:+: (create_agentic_prompt pExample "hi").data ∧
    "Client Project: A".data <:+: (create_agentic_prompt pExample "hi").data :=
  ⟨(prompt_contains_profile_fields pExample "hi").1,
   (prompt_contains_profile_fields pExample "hi").2.2.2.2.2.2.2.2.2
     ⟨"Client Project: A", "d1"⟩ (by simp [pExample])⟩

/-- Claim C8: the prompt composer is a pure deterministic function of the
profile and the user query — equal inputs give byte-identical output. -/
theorem prompt_composition_deterministic (p₁ p₂ : Profile) (q₁ q₂ : String)
    (h1 : p₁ = p₂) (h2 : q₁ = q₂) :
    create_agentic_prompt p₁ q₁ = create_agentic_prompt p₂ q₂ := by
  rw [h1, h2]

/-- Witness for C8 at a concrete profile and query. -/
theorem prompt_composition_deterministic_witness :
    create_agentic_prompt pExample "hi" = create_agentic_prompt pExample "hi" :=
  prompt_composition_deterministic pExample pExample "hi" "hi" rfl rfl

/-- Claim C9: a successful generation call returning the empty string appends
no assistant entry — the turn leaves exactly one appended entry, the user's. -/
theorem empty_response_single_append (msgs : List TranscriptEntry) (u : String) :
    turnStep msgs u (some "") = msgs ++ [userEntry u] ∧
    (turnStep msgs u (some "")).length = msgs.length + 1 := by
  have h : turnStep msgs u (some "") = msgs ++ [userEntry u] := rfl
  exact ⟨h, by rw [h]; simp⟩

end App

namespace App

/-- Claim C1 (amended): each project appears in the composed prompt's project
listing as the unannotated line "- **name**: description" — the prompt
attaches no derived category to it. -/
theorem project_listing_unannotated (p : Profile) (q : String) (pr : Project)
    (h : pr ∈ p.projects) :
    ("- **" ++ pr.name ++ "**: " ++ pr.description ++ "\n").data <:+:
      (create_agentic_prompt p q).data := by
  rw [create_agentic_prompt_eq_concatAll]
  have h2 : (projectLine pr).data <:+: (projectLines p.projects).data :=
    infix_of_mem_projectLines h
  have h3 : (projectLines p.projects).data <:+: (concatAll (promptChunks p q)).data :=
    infix_of_mem_concatAll (by simp [promptChunks])
  exact h2.trans h3

/-- Witness for the amended C1: project "B" of the example profile appears as
its unannotated line. -/
theorem project_listing_unannotated_witness :
    ("- **" ++ "B" ++ "**: " ++ "d2" ++ "\n").data <:+:
      (create_agentic_prompt pExample "hi").data :=
  project_listing_unannotated pExample "hi" ⟨"B", "d2"⟩ (by simp [pExample])

/-- Claim C1 as stated is false on the code: at the spec section 8 example
profile, project "B" has derived category "Personal Project", the project
listing is part of the composed prompt, yet that category string occurs
nowhere in the listing — the code never computes or prints a category. -/
theorem project_category_not_in_listing :
    (⟨"B", "d2"⟩ : Project) ∈ pExample.projects ∧
    derivedCategory "B" = "Personal Project" ∧
    (projectLines pExample.projects).data <:+:
      (create_agentic_prompt pExample "what client projects have you done?").data ∧
    ¬ ((derivedCategory "B").data <:+: (projectLines pExample.projects).data) := by
  refine ⟨by simp [pExample], by decide, ?_, ?_⟩
  · rw [create_agentic_prompt_eq_concatAll]
    exact infix_of_mem_concatAll (by simp [promptChunks])
  · decide

end App

namespace App

/-- Claim C2 (amended): the composed prompt concatenates, separated by
newlines, the identity statement, the fact block, the project listing, then
the NAVIGATION instruction, then the behavior instructions, and finally
"User Query: " followed by the literal latest user utterance, with no prior
turns included — navigation precedes behavior, the reverse of the spec's
stated order of those two blocks. -/
theorem prompt_block_order (p : Profile) (q : String) :
    create_agentic_prompt p q =
      identity_statement p ++ (fact_lines p ++ (projects_header ++
        (projectLines p.projects ++ ("\n" ++ (navigation_instructions ++
          ("\n" ++ (system_general_instructions ++ ("\n\nUser Query: " ++ q)))))))) := by
  apply String.ext
  simp only [create_agentic_prompt, system_intro, strData_append, List.append_assoc]

/-- Claim C2 as stated is false on the code: at a concrete profile and query,
the composed prompt differs from the same six blocks concatenated in the
order the spec states (behavior instructions before the navigation
instruction). -/
theorem prompt_order_differs_from_spec :
    create_agentic_prompt pExample "hi" ≠ create_agentic_prompt_spec_order pExample "hi" := by
  simp [create_agentic_prompt, create_agentic_prompt_spec_order, system_intro,
    identity_statement, fact_lines, projects_header, projectLines, projectLine,
    navigation_instructions, system_general_instructions, pExample,
    show String.intercalate ", " ["Python"] = "Python" from rfl]

end App

namespace App

/-- Claim C4 (amended): a generation call that returns a non-empty response
appends exactly two entries, user first and assistant second; a failing call
appends exactly one, the user entry. -/
theorem turn_appends_entries (msgs : List TranscriptEntry) (u r : String)
    (h : r ≠ "") :
    turnStep msgs u (some r) = msgs ++ [userEntry u, assistantEntry r] ∧
    turnStep msgs u none = msgs ++ [userEntry u] := by
  refine ⟨?_, rfl⟩
  show (if r.isEmpty then msgs ++ [userEntry u]
        else msgs ++ [userEntry u, assistantEntry r]) =
      msgs ++ [userEntry u, assistantEntry r]
  rw [if_neg (fun hb => h ((String.isEmpty_iff r).mp hb))]

/-- Witness for the amended C4 at a concrete turn. -/
theorem turn_appends_entries_witness :
    turnStep [] "hi" (some "ok") = [] ++ [userEntry "hi", assistantEntry "ok"] ∧
    turnStep [] "hi" none = [] ++ [userEntry "hi"] :=
  turn_appends_entries [] "hi" "ok" (by decide)

/-- Claim C4 as stated is false on the code: a generation call that succeeds
with the empty string appends only the user entry — `if response:` is falsy
for the empty string — not two entries. -/
theorem empty_response_not_two_entries :
    turnStep [] "hi" (some "") = [userEntry "hi"] ∧
    turnStep [] "hi" (some "") ≠ [userEntry "hi", assistantEntry ""] := by
  constructor
  · decide
  · decide

/-- Claim C5 (amended): the client sends the JSON body
`{model, prompt, stream: false}`; a connection failure maps to the
Unreachable failure, any other transport exception to RequestError, and a
4xx or 5xx status to RequestError via `raise_for_status`; a reply whose
status is outside 400-599 — including non-2xx statuses such as 304 — is not
treated as a failure: the client proceeds to return the body's `response`
field.  The single call is never retried (the model is one function of one
call outcome). -/
theorem gen_client_outcomes (model prompt : String) (status : Nat) (body v : Json) :
    (ollamaRequest model prompt).body =
      Json.obj [("model", Json.str model), ("prompt", Json.str prompt),
                ("stream", Json.boolean false)] ∧
    get_gemma_response HttpOutcome.connectionError = GenOutcome.unreachable ∧
    get_gemma_response HttpOutcome.requestException = GenOutcome.requestError ∧
    (400 ≤ status → status < 600 →
      get_gemma_response (HttpOutcome.reply status body) = GenOutcome.requestError) ∧
    (status < 400 → jsonGet body "response" = some v →
      get_gemma_response (HttpOutcome.reply status body) = GenOutcome.answer v) := by
  refine ⟨rfl, rfl, rfl, ?_, ?_⟩
  · intro h1 h2
    have hb : raiseForStatusRaises status = true := by
      simp only [raiseForStatusRaises, Bool.and_eq_true, decide_eq_true_eq]
      omega
    simp [get_gemma_response, hb]
  · intro h1 hv
    have hb : raiseForStatusRaises status = false := by
      simp only [raiseForStatusRaises, Bool.and_eq_false_iff, decide_eq_false_iff_not]
      omega
    simp [get_gemma_response, hb, hv]

/-- Witness for the amended C5: a 404 reply yields the RequestError failure. -/
theorem gen_client_outcomes_witness :
    get_gemma_response (HttpOutcome.reply 404 (Json.obj [])) = GenOutcome.requestError :=
  (gen_client_outcomes "gemma3" "p" 404 (Json.obj []) Json.null).2.2.2.1
    (by decide) (by decide)

/-- Claim C5's "(any non-2xx status)" reading is false on the code: a 304
reply (non-2xx) is not turned into RequestError — `raise_for_status` raises
only for 4xx/5xx, so the code returns the reply's `response` field. -/
theorem status_304_not_request_error :
    ¬ (200 ≤ 304 ∧ 304 < 300) ∧
    get_gemma_response (HttpOutcome.reply 304 (Json.obj [("response", Json.str "hi")])) =
      GenOutcome.answer (Json.str "hi") ∧
    get_gemma_response (HttpOutcome.reply 304 (Json.obj [("response", Json.str "hi")])) ≠
      GenOutcome.requestError := by
  refine ⟨by decide, rfl, ?_⟩
  intro h
  exact GenOutcome.noConfusion h

end App

namespace App

/-- Claim C6: loading fails with NotFound exactly when the file is absent,
ParseError exactly when the content is not valid JSON, Unexpected exactly for
any other I/O problem; and the app proceeds past startup (offering chat) with
a profile exactly when loading fully succeeded with that profile. -/
theorem load_failure_taxonomy (path : String) (fs : FileOutcome) :
    ((∃ m, load_personal_info path fs = LoadResult.notFound m) ↔
      fs = FileOutcome.absent) ∧
    ((∃ m, load_personal_info path fs = LoadResult.parseError m) ↔
      fs = FileOutcome.readable none) ∧
    ((∃ m, load_personal_info path fs = LoadResult.unexpected m) ↔
      ∃ e, fs = FileOutcome.ioError e) ∧
    (∀ j, startupProfile fs = some j ↔ fs = FileOutcome.readable (some j)) := by
  cases fs with
  | absent => simp [load_personal_info, startupProfile]
  | ioError e => simp [load_personal_info, startupProfile]
  | readable o =>
    cases o with
    | none => simp [load_personal_info, startupProfile]
    | some j => simp [load_personal_info, startupProfile]

/-- One user turn only appends entries whose roles are "user" or "assistant",
leaving the previous transcript as an untouched prefix. -/
theorem turnStep_eq_append (msgs : List TranscriptEntry) (u : String)
    (r : Option String) :
    ∃ tail, turnStep msgs u r = msgs ++ tail ∧
      ∀ e ∈ tail, e.role = "user" ∨ e.role = "assistant" := by
  cases r with
  | none =>
    refine ⟨[userEntry u], rfl, ?_⟩
    intro e he
    rw [List.mem_singleton] at he
    subst he
    exact Or.inl rfl
  | some s =>
    by_cases hs : s.isEmpty = true
    · refine ⟨[userEntry u], ?_, ?_⟩
      · show (if s.isEmpty then msgs ++ [userEntry u]
              else msgs ++ [userEntry u, assistantEntry s]) = msgs ++ [userEntry u]
        rw [if_pos hs]
      · intro e he
        rw [List.mem_singleton] at he
        subst he
        exact Or.inl rfl
    · refine ⟨[userEntry u, assistantEntry s], ?_, ?_⟩
      · show (if s.isEmpty then msgs ++ [userEntry u]
              else msgs ++ [userEntry u, assistantEntry s]) =
            msgs ++ [userEntry u, assistantEntry s]
        rw [if_neg hs]
      · intro e he
        simp only [List.mem_cons, List.not_mem_nil, or_false] at he
        rcases he with rfl | rfl
        · exact Or.inl rfl
        · exact Or.inr rfl

/-- Claim C7: every reachable transcript begins with the synthetic assistant
greeting, contains only entries whose role is "user" or "assistant", and a
user turn only ever appends at the end — the current transcript is a prefix
of its successor. -/
theorem transcript_invariant (p : Profile) (msgs : List TranscriptEntry)
    (h : Reachable p msgs) :
    msgs.head? = some (greeting p) ∧
    (∀ e ∈ msgs, e.role = "user" ∨ e.role = "assistant") ∧
    (∀ u r, msgs <+: turnStep msgs u r) := by
  have hpre : ∀ (ms : List TranscriptEntry) (u : String) (r : Option String),
      ms <+: turnStep ms u r := by
    intro ms u r
    obtain ⟨tail, ht, _⟩ := turnStep_eq_append ms u r
    rw [ht]
    exact ⟨tail, rfl⟩
  induction h with
  | init =>
    refine ⟨rfl, ?_, fun u r => hpre _ u r⟩
    intro e he
    rw [List.mem_singleton] at he
    subst he
    exact Or.inr rfl
  | turn ms u r hr ih =>
    obtain ⟨ihHead, ihRoles, _⟩ := ih
    obtain ⟨tail, ht, htr⟩ := turnStep_eq_append ms u r
    refine ⟨?_, ?_, fun u2 r2 => hpre _ u2 r2⟩
    · rw [ht]
      cases ms with
      | nil => exact absurd ihHead (by simp)
      | cons a t =>
        simpa using ihHead
    · intro e he
      rw [ht] at he
      rcases List.mem_append.mp he with h1 | h2
      · exact ihRoles e h1
      · exact htr e h2

/-- Witness for C7 at the initial reachable transcript. -/
theorem transcript_invariant_witness :
    [greeting pExample].head? = some (greeting pExample) ∧
    (∀ e ∈ [greeting pExample], e.role = "user" ∨ e.role = "assistant") ∧
    (∀ u r, [greeting pExample] <+: turnStep [greeting pExample] u r) :=
  transcript_invariant pExample [greeting pExample] Reachable.init

/-- Claim C10: a 2xx reply whose JSON body lacks a "response" field makes
`get_gemma_response` raise an uncaught exception (`KeyError`) — it returns
neither the success value nor either declared failure, because its handlers
catch only connection and request errors. -/
theorem missing_response_field_uncaught (status : Nat) (body : Json)
    (h1 : 200 ≤ status) (h2 : status < 300) (h3 : jsonGet body "response" = none) :
    get_gemma_response (HttpOutcome.reply status body) = GenOutcome.uncaught ∧
    (∀ v, get_gemma_response (HttpOutcome.reply status body) ≠ GenOutcome.answer v) ∧
    get_gemma_response (HttpOutcome.reply status body) ≠ GenOutcome.unreachable ∧
    get_gemma_response (HttpOutcome.reply status body) ≠ GenOutcome.requestError := by
  have hb : raiseForStatusRaises status = false := by
    simp only [raiseForStatusRaises, Bool.and_eq_false_iff, decide_eq_false_iff_not]
    omega
  have hmain : get_gemma_response (HttpOutcome.reply status body) = GenOutcome.uncaught := by
    simp [get_gemma_response, hb, h3]
  refine ⟨hmain, fun v => by rw [hmain]; simp, by rw [hmain]; simp, by rw [hmain]; simp⟩

/-- Witness for C10: a 200 reply with an empty JSON object body. -/
theorem missing_response_field_uncaught_witness :
    get_gemma_response (HttpOutcome.reply 200 (Json.obj [])) = GenOutcome.uncaught :=
  (missing_response_field_uncaught 200 (Json.obj []) (by decide) (by decide) rfl).1

end App

namespace App

/-- Witness for C6: an absent file yields the NotFound failure. -/
theorem load_failure_taxonomy_witness :
    ∃ m, load_personal_info "personal_info.json" FileOutcome.absent = LoadResult.notFound m :=
  (load_failure_taxonomy "personal_info.json" FileOutcome.absent).1.mpr rfl

end App
